import Mathlib

/-! Shallow embedding of the stroke-bite generation and caching subsystem of the
strokecovery backend (src/server/app/services/bite_generator.py,
src/server/app/services/fallback_bites.py,
src/server/app/services/medicine_info_service.py,
src/server/app/api/stroke_bites.py, src/server/app/models/stroke_bite.py),
together with proofs about the claims of its specification.

Modelling conventions: a Python dict field that may be absent or null is an
Option field; Python exceptions are an explicit Except PyErr; calendar dates
are day numbers (Int); external calls (LLM, embedding, vector search, the
database) are passed in as explicit data or outcome parameters. -/

namespace Strokecovery

/-- Python exception outcomes produced by the embedded code. -/
inductive PyErr where
  | keyError (key : String)
  | valueError (msg : String)
  | external (msg : String)
  deriving DecidableEq, Repr

/-- Python truthiness of an optional string obtained with dict.get:
an absent key, a None value and the empty string are all falsy. -/
def pyTruthy : Option String → Bool
  | none => false
  | some s => !s.isEmpty

/-- One option of a qa card, as a dict (schemas/stroke_bite.py BiteOption).
Each field uses none for an absent-or-null key. -/
structure BiteOption where
  key : Option String := none
  label : Option String := none
  next_card_id : Option String := none
  deriving DecidableEq, Repr

/-- One card dict as produced by the LLM or the fallback set
(schemas/stroke_bite.py BiteCard). In the id field, none models a dict in
which the id key is absent (so subscripting raises KeyError); in every other
field none models an absent-or-null key. -/
structure BiteCard where
  id : Option String := none
  type : Option String := none
  title : Option String := none
  body : Option String := none
  emoji : Option String := none
  background_color : Option String := none
  source_insight_id : Option String := none
  question : Option String := none
  options : Option (List BiteOption) := none
  next_card_id : Option String := none
  deriving DecidableEq, Repr

/-- The set comprehension collecting card ids in validate_card_graph
(bite_generator.py line 277): subscripting card with the id key raises
KeyError at the first card whose id key is absent. -/
def cardIds : List BiteCard → Except PyErr (List String)
  | [] => .ok []
  | c :: cs =>
    match c.id with
    | none => .error (.keyError "id")
    | some i => do
      let rest ← cardIds cs
      .ok (i :: rest)

/-- One forward-reference check of validate_card_graph: a truthy next_card_id
value must be a member of the id set; a falsy one (absent, null or empty) is
skipped. -/
def refOk (ids : List String) (x : Option String) : Bool :=
  if pyTruthy x then decide (x.getD "" ∈ ids) else true

/-- The per-card body of the reference-checking loop in validate_card_graph
(bite_generator.py lines 284-292): the linear next_card_id check, and, when
the options value is truthy, the option-level next_card_id checks. -/
def checkCard (ids : List String) (c : BiteCard) : Bool :=
  refOk ids c.next_card_id &&
  (match c.options with
   | none => true
   | some opts => opts.all fun o => refOk ids o.next_card_id)

/-- validate_card_graph (bite_generator.py lines 275-294). Returns false when
the start id is missing from the id set or some truthy forward reference does
not resolve; raises KeyError when some card has no id key. Iterating an empty
options list is the same as skipping a falsy options value, so the empty-list
case is folded into List.all. -/
def validate_card_graph (cards : List BiteCard) (start_id : String) :
    Except PyErr Bool := do
  let ids ← cardIds cards
  if start_id ∈ ids then
    return cards.all (checkCard ids)
  else
    return false

/-- The COLOR_PALETTE lookup with its welcome-color default
(bite_generator.py lines 259-270). -/
def cardColor (t : String) : String :=
  if t == "welcome" then "#0D9488"
  else if t == "research_fact" then "#3B82F6"
  else if t == "motivation" then "#10B981"
  else if t == "qa" then "#8B5CF6"
  else if t == "conditional_response" then "#F59E0B"
  else if t == "tip" then "#06B6D4"
  else "#0D9488"

/-- assign_card_colors (bite_generator.py lines 254-272): sets every card's
background_color from its type, defaulting the type to motivation when the
type key is absent. -/
def assign_card_colors (cards : List BiteCard) : List BiteCard :=
  cards.map fun c =>
    { c with background_color := some (cardColor (c.type.getD "motivation")) }

/-- The dict shape shared by the parsed LLM output, the fallback set and the
value returned by generate_bites: cards, start_card_id, total_cards and
card_sequence_length keys, each possibly absent. -/
structure BitesResult where
  cards : Option (List BiteCard) := none
  start_card_id : Option String := none
  total_cards : Option Nat := none
  card_sequence_length : Option Nat := none
  deriving DecidableEq, Repr

/-- get_fallback_bites (fallback_bites.py lines 11-115): the static eight-card
fallback set, transcribed field by field. -/
def get_fallback_bites : BitesResult :=
  { cards := some [
      { id := some "f1", type := some "welcome", title := none,
        body := some "Welcome! Here are today\x27s recovery insights.",
        emoji := some "👋", background_color := some "#0D9488",
        source_insight_id := none, question := none, options := none,
        next_card_id := some "f2" },
      { id := some "f2", type := some "motivation",
        title := some "Recovery is a Journey",
        body := some "Every small step forward is progress. Be patient with yourself.",
        emoji := some "🌱", background_color := some "#059669",
        source_insight_id := none, question := none, options := none,
        next_card_id := some "f3" },
      { id := some "f3", type := some "tip", title := some "Stay Consistent",
        body := some "Regular therapy sessions help your brain form new connections. Consistency matters more than intensity.",
        emoji := some "🧠", background_color := some "#2563EB",
        source_insight_id := none, question := none, options := none,
        next_card_id := some "f4" },
      { id := some "f4", type := some "motivation",
        title := some "You\x27re Not Alone",
        body := some "Millions of stroke survivors are on this journey with you. Recovery takes time, and that\x27s okay.",
        emoji := some "💙", background_color := some "#7C3AED",
        source_insight_id := none, question := none, options := none,
        next_card_id := some "f5" },
      { id := some "f5", type := some "tip", title := some "Rest Matters",
        body := some "Your brain heals during sleep. Aim for 7-9 hours each night to support your recovery.",
        emoji := some "😴", background_color := some "#EC4899",
        source_insight_id := none, question := none, options := none,
        next_card_id := some "f6" },
      { id := some "f6", type := some "motivation",
        title := some "Celebrate Small Wins",
        body := some "Did you do your therapy today? Take your meds? That\x27s worth celebrating!",
        emoji := some "🎉", background_color := some "#EA580C",
        source_insight_id := none, question := none, options := none,
        next_card_id := some "f7" },
      { id := some "f7", type := some "tip", title := some "Stay Hydrated",
        body := some "Drinking enough water helps your body and brain function better. Keep a water bottle nearby.",
        emoji := some "💧", background_color := some "#2563EB",
        source_insight_id := none, question := none, options := none,
        next_card_id := some "f8" },
      { id := some "f8", type := some "motivation", title := some "Keep Going",
        body := some "You\x27re doing great. Come back tomorrow for more insights!",
        emoji := some "✨", background_color := some "#0D9488",
        source_insight_id := none, question := none, options := none,
        next_card_id := none }
    ],
    start_card_id := some "f1",
    total_cards := some 8,
    card_sequence_length := some 8 }

/-- A strictly linear card chain: each card names the next card's id in its
linear next_card_id, carries no options, and the last card's next_card_id is
null. -/
def linearChain : List BiteCard → Bool
  | [] => true
  | [c] => c.next_card_id == none && c.options == none
  | c :: d :: rest =>
    c.next_card_id == d.id && c.options == none && linearChain (d :: rest)

/-- The patient profile fields read by the generator
(models/patient_profile.py). Dates are day numbers; a null therapy array and
an empty one behave alike and are both modelled as the empty list. -/
structure PatientProfile where
  id : String := ""
  stroke_date : Option Int := none
  stroke_type : Option String := none
  current_therapies : List String := []
  affected_side : Option String := none
  deriving DecidableEq, Repr

/-- get_recovery_phase (bite_generator.py lines 25-36), with the current date
passed explicitly. -/
def get_recovery_phase (today : Int) (stroke_date : Option Int) : String :=
  match stroke_date with
  | none => "unknown"
  | some d =>
    let days_since := today - d
    if days_since ≤ 7 then "acute"
    else if days_since ≤ 180 then "subacute"
    else "chronic"

/-- One row of the insights store, with the columns selected by
fetch_insights. A none id models a row or dict without an id value. -/
structure InsightRow where
  id : Option String := none
  claim : Option String := none
  evidence : Option String := none
  quantitative_result : Option String := none
  stroke_types : List String := []
  recovery_phase : Option String := none
  intervention : Option String := none
  sample_size : Option Nat := none
  deriving DecidableEq, Repr

/-- The stroke-type and recovery-phase filters of the step-2 store query in
fetch_insights (bite_generator.py lines 107-110): a truthy profile stroke
type must be contained in the row array, and a known recovery phase must
equal the row value. -/
def insightMatchesFilters (today : Int) (profile : PatientProfile)
    (r : InsightRow) : Bool :=
  (if pyTruthy profile.stroke_type then
      decide (profile.stroke_type.getD "" ∈ r.stroke_types)
    else true) &&
  (let rp := get_recovery_phase today profile.stroke_date
   if rp != "unknown" then r.recovery_phase == some rp else true)

/-- The list comprehension over already-fetched insight ids in fetch_insights
(bite_generator.py line 113): subscripting raises KeyError at the first
insight without an id. -/
def idsOfInsights : List InsightRow → Except PyErr (List String)
  | [] => .ok []
  | r :: rs =>
    match r.id with
    | none => .error (.keyError "id")
    | some i => do
      let rest ← idsOfInsights rs
      .ok (i :: rest)

/-- Step 1 of fetch_insights (bite_generator.py lines 57-95): the semantic
search, attempted only when the profile lists a therapy. The whole try block
(query building, embedding call, match_insights RPC) is the outcome parameter
semantic; any exception is swallowed and yields zero results; a returned row
list is filtered against exclude_ids in application code. -/
def fetchStep1 (profile : PatientProfile) (exclude_ids : List String)
    (semantic : Except PyErr (List InsightRow)) : List InsightRow :=
  if !profile.current_therapies.isEmpty then
    match semantic with
    | .error _ => []
    | .ok rows =>
      if rows.isEmpty then []
      else rows.filter fun r =>
        match r.id with
        | none => true
        | some i => decide (i ∉ exclude_ids)
  else []

/-- Step 2 of fetch_insights (bite_generator.py lines 98-122): the
supplementary store query, modelled over store, the insights table in its
scan order: the stroke-type and phase filters, then the not-in exclusion
(applied only when exclude_ids is nonempty; a SQL not-in over a nonempty list
also drops null-id rows), then the limit of needed rows. The id comprehension
over the already-chosen insights can raise KeyError, which the caller
swallows. -/
def fetchStep2 (today : Int) (profile : PatientProfile)
    (exclude_ids : List String) (chosen : List InsightRow)
    (store : List InsightRow) : Except PyErr (List InsightRow) :=
  let needed := 6 - chosen.length
  if exclude_ids.isEmpty then
    .ok ((store.filter (insightMatchesFilters today profile)).take needed)
  else do
    let chosenIds ← idsOfInsights chosen
    let all_exclude := exclude_ids ++ chosenIds
    .ok ((store.filter fun r =>
        insightMatchesFilters today profile r &&
        (match r.id with
         | none => false
         | some i => decide (i ∉ all_exclude))).take needed)

/-- fetch_insights (bite_generator.py lines 44-124): the semantic step, the
conditional supplement step with its swallowed failures, and the final cap of
six results. -/
def fetch_insights (today : Int) (profile : PatientProfile)
    (exclude_ids : List String) (semantic : Except PyErr (List InsightRow))
    (store : List InsightRow) : List InsightRow :=
  let insights := fetchStep1 profile exclude_ids semantic
  let insights :=
    if insights.length < 5 then
      match fetchStep2 today profile exclude_ids insights store with
      | .error _ => insights
      | .ok more => insights ++ more
    else insights
  insights.take 6

/-- One stroke_bite_answers row as read by get_past_answers
(models/stroke_bite.py StrokeBiteAnswer), timestamps as day numbers. -/
structure StrokeBiteAnswerRow where
  patient_id : String := ""
  created_at : Int := 0
  question_text : Option String := none
  selected_label : Option String := none
  deriving DecidableEq, Repr

/-- Python dict assignment on a string-keyed dict kept as an insertion-ordered
association list: an existing key is overwritten in place, a new key is
appended. -/
def dictSet (m : List (String × String)) (k v : String) :
    List (String × String) :=
  if m.any (fun p => p.1 == k) then
    m.map (fun p => if p.1 == k then (k, v) else p)
  else m ++ [(k, v)]

/-- get_past_answers (bite_generator.py lines 127-145): answers of the last 30
days for the patient, folded into a preference dict keyed by the normalized
question text, later rows overwriting earlier ones. -/
def get_past_answers (now : Int) (patient_id : String)
    (answers : List StrokeBiteAnswerRow) : List (String × String) :=
  let cutoff := now - 30
  let rows := answers.filter fun a =>
    a.patient_id == patient_id && decide (cutoff ≤ a.created_at)
  rows.foldl
    (fun prefs a =>
      if pyTruthy a.question_text && pyTruthy a.selected_label then
        let key := ((a.question_text.getD "").toLower.replace " " "_").take 50
        dictSet prefs key (a.selected_label.getD "")
      else prefs)
    []

/-- Python x or default on an optional string: the default replaces a missing,
null or empty value. -/
def pyOrStr (v : Option String) (dflt : String) : String :=
  if pyTruthy v then v.getD "" else dflt

/-- An alignment character of the format-spec mini-language. -/
def isAlignChar (c : Char) : Bool := c == '<' || c == '>' || c == '^'

/-- Whether CPython accepts a format spec for a str value: an optional fill
and alignment, an optional minimum width, an optional precision and an
optional trailing s; any other character (a sign, grouping option or stray
text) makes str formatting raise ValueError. -/
def strFormatSpecValid (spec : String) : Bool :=
  let cs := spec.toList
  let cs := match cs with
    | c₁ :: c₂ :: rest =>
      if isAlignChar c₂ then rest
      else if isAlignChar c₁ then c₂ :: rest
      else c₁ :: c₂ :: rest
    | [c₁] => if isAlignChar c₁ then [] else [c₁]
    | [] => []
  let cs := cs.dropWhile Char.isDigit
  let precOk : Bool × List Char :=
    match cs with
    | '.' :: rest => (!(rest.takeWhile Char.isDigit).isEmpty, rest.dropWhile Char.isDigit)
    | _ => (true, cs)
  let cs := match precOk.2 with
    | 's' :: rest => rest
    | rest => rest
  precOk.1 && cs.isEmpty

/-- Python format(value, spec) on a str value: an invalid spec raises
ValueError; the padded rendering of valid nonempty specs is not needed here
and the value is returned unchanged. -/
def pyFormatStr (v : String) (spec : String) : Except PyErr String :=
  if strFormatSpecValid spec then .ok v else .error (.valueError "Invalid format specifier")

/-- The fixed system prompt of build_prompt (bite_generator.py lines 155-175),
a constant string not depending on any input; its prose is abridged here. -/
def systemPromptText : String :=
  "You are a stroke recovery companion creating daily Stroke Bites - short, swipeable cards for a stroke survivor. You must output valid JSON only. RULES: generate exactly 8-10 cards in a flat list; include 1 welcome card, 2-3 research fact cards if insights are provided, at least 1 qa card with 2 options, and conditional responses for each branch; both branches rejoin the main sequence; card ids use the format c1, c2, c3, c4a, c4b; the last card in the main path has next_card_id null; research facts must be based only on the provided insights; do not include a background_color field. OUTPUT FORMAT: a JSON object with cards, start_card_id and card_sequence_length keys."

/-- JSON rendering of a string (inner escaping not modelled). -/
def jsonQ (s : String) : String := "\x22" ++ s ++ "\x22"

/-- JSON rendering of an optional string. -/
def jsonOptStr : Option String → String
  | none => "null"
  | some s => jsonQ s

/-- json.dumps of the preference dict in the user prompt. -/
def dumpsPrefs (m : List (String × String)) : String :=
  "\x7b" ++ String.intercalate ", "
    (m.map fun p => jsonQ p.1 ++ ": " ++ jsonQ p.2) ++ "\x7d"

/-- json.dumps of the insight list rendered in the user prompt
(bite_generator.py lines 191-196): id, claim, evidence and intervention of
each insight. -/
def dumpsInsights (l : List InsightRow) : String :=
  "[" ++ String.intercalate ", "
    (l.map fun i =>
      "\x7b\x22id\x22: " ++ jsonOptStr i.id ++
      ", \x22claim\x22: " ++ jsonOptStr i.claim ++
      ", \x22evidence\x22: " ++ jsonOptStr i.evidence ++
      ", \x22intervention\x22: " ++ jsonOptStr i.intervention ++ "\x7d") ++ "]"

/-- build_prompt (bite_generator.py lines 148-220). The user prompt is a
Python f-string whose example Q&A card block (lines 202-216) is not
brace-escaped, so CPython compiles it into replacement fields; the first
nested field evaluated formats the string key against the spec text that
follows it inside the braces, an invalid format specifier for a str, so every
call raises ValueError before the prompt is assembled. The computed pieces
preceding the failure and the failing format call are modelled faithfully;
literal prose is abridged. -/
def build_prompt (today : Int) (profile : PatientProfile)
    (insights : List InsightRow) (past_answers : List (String × String)) :
    Except PyErr (String × String) := do
  let system_prompt := systemPromptText
  let recovery_phase := get_recovery_phase today profile.stroke_date
  let days_since : Int :=
    match profile.stroke_date with
    | some d => today - d
    | none => 0
  let header :=
    "Generate today\x27s Stroke Bites for this patient: Stroke type: " ++
      pyOrStr profile.stroke_type "not specified" ++
    ", Recovery phase: " ++ recovery_phase ++
    " (" ++ toString days_since ++ " days since stroke)" ++
    ", Current therapies: " ++
      (if profile.current_therapies.isEmpty then "none"
       else String.intercalate ", " profile.current_therapies) ++
    ", Affected side: " ++ pyOrStr profile.affected_side "not specified"
  let prefsBlock :=
    if past_answers.isEmpty then "No previous answers" else dumpsPrefs past_answers
  let insightsBlock := dumpsInsights insights
  let exampleKeyField ← pyFormatStr "key"
    " \x22a\x22, \x22label\x22: \x22Yes, 3+ times a week\x22, \x22next_card_id\x22: \x22c4a\x22"
  let user_prompt := header ++ " Previous Q&A preferences: " ++ prefsBlock ++
    " Research insights to use: " ++ insightsBlock ++
    " Example Q&A card structure: " ++ exampleKeyField
  .ok (system_prompt, user_prompt)

/-- The tail of generate_bites from the LLM call onward (bite_generator.py
lines 335-364): an exception from call_llm (LLM or JSON-parse failure) is
absorbed into the fallback set; a validation result of false is absorbed into
the fallback set; an exception raised inside validate_card_graph propagates;
a validated card list gets colors and the returned metadata. -/
def processLLMOutcome (llmOutcome : Except PyErr BitesResult) :
    Except PyErr BitesResult :=
  match llmOutcome with
  | .error _ => .ok get_fallback_bites
  | .ok result =>
    let cards_data := result.cards.getD []
    let start_id := result.start_card_id.getD "c1"
    match validate_card_graph cards_data start_id with
    | .error e => .error e
    | .ok false => .ok get_fallback_bites
    | .ok true =>
      let colored := assign_card_colors cards_data
      .ok { cards := some colored,
            start_card_id := some start_id,
            total_cards := some colored.length,
            card_sequence_length := some (result.card_sequence_length.getD 8) }

/-- One stroke_bites row (models/stroke_bite.py StrokeBite), dates as day
numbers; the cards_json JSONB document is always a dict here. -/
structure StrokeBiteRow where
  patient_id : String := ""
  generated_date : Int := 0
  cards_json : BitesResult := {}
  start_card_id : String := ""
  card_sequence_length : Nat := 8
  deriving DecidableEq, Repr

/-- The exclusion-window extraction in generate_bites (bite_generator.py
lines 312-318): every truthy source_insight_id of every card of every recent
bite row. -/
def extract_exclude_ids (bites : List StrokeBiteRow) : List String :=
  bites.foldl
    (fun acc b =>
      acc ++ (b.cards_json.cards.getD []).filterMap fun c =>
        if pyTruthy c.source_insight_id then c.source_insight_id else none)
    []

/-- generate_bites (bite_generator.py lines 297-364). Database query results
and external-call outcomes are parameters: pastBites is the stroke_bites
table (the 14-day window query is embedded), answers the stroke_bite_answers
table, semantic and store the two insight-retrieval sources, llm the outcome
of call_llm on the built prompts. -/
def generate_bites (today : Int) (profile : PatientProfile)
    (pastBites : List StrokeBiteRow) (answers : List StrokeBiteAnswerRow)
    (semantic : Except PyErr (List InsightRow)) (store : List InsightRow)
    (llm : String → String → Except PyErr BitesResult) :
    Except PyErr BitesResult := do
  let windowBites := pastBites.filter fun b =>
    b.patient_id == profile.id && decide (today - 14 ≤ b.generated_date)
  let exclude_ids := extract_exclude_ids windowBites
  let insights := fetch_insights today profile exclude_ids semantic store
  let past_answers := get_past_answers today profile.id answers
  let prompts ← build_prompt today profile insights past_answers
  processLLMOutcome (llm prompts.1 prompts.2)

/-- One medicine_info row (models/medicine_info.py MedicineInfo). -/
structure MedicineInfoRow where
  medicine_name : String := ""
  combination : Option String := none
  drug_class : Option String := none
  used_for : Option String := none
  deriving DecidableEq, Repr

/-- The three JSON fields returned by the medicine LLM call, each read with
dict.get so an absent key becomes null. -/
structure MedData where
  combination : Option String := none
  drug_class : Option String := none
  used_for : Option String := none
  deriving DecidableEq, Repr

/-- Python str.strip with no argument: drop whitespace from both ends. -/
def pyStrip (s : String) : String :=
  String.mk
    (((s.toList.dropWhile Char.isWhitespace).reverse.dropWhile
        Char.isWhitespace).reverse)

/-- The case-insensitive name lookup of medicine_info_service.py (lines
64-69 and 93-98): the first row whose lower-cased name equals the lower-cased
query name. Python str.lower is modelled by String.toLower. -/
def ciLookup (db : List MedicineInfoRow) (name : String) :
    Option MedicineInfoRow :=
  db.find? fun r => r.medicine_name.toLower == name.toLower

/-- The unique index on medicine_info.medicine_name declared in
models/medicine_info.py line 12: inserting a row whose exact name is already
present raises IntegrityError; otherwise the row is appended. -/
def insertMedicineRow (db : List MedicineInfoRow) (row : MedicineInfoRow) :
    Except PyErr (List MedicineInfoRow) :=
  if db.any (fun r => r.medicine_name == row.medicine_name) then
    .error (.external "IntegrityError")
  else .ok (db ++ [row])

/-- get_or_create_medicine_info (medicine_info_service.py lines 57-103).
db is the table at the initial lookup; concurrent holds the rows other
requests insert between that lookup and the commit; llm is the outcome of the
metadata call (an exception becomes a row of null fields). Returns the row
handed to the caller and the final table; the commit-failure path rolls back,
re-fetches case-insensitively and re-raises only when the re-fetch finds
nothing. -/
def get_or_create_medicine_info (medicine_name : String)
    (db concurrent : List MedicineInfoRow) (llm : Except PyErr MedData) :
    Except PyErr (MedicineInfoRow × List MedicineInfoRow) :=
  let normalized := pyStrip medicine_name
  match ciLookup db normalized with
  | some cached => .ok (cached, db ++ concurrent)
  | none =>
    let data : MedData :=
      match llm with
      | .ok d => d
      | .error _ => {}
    let record : MedicineInfoRow :=
      { medicine_name := normalized, combination := data.combination,
        drug_class := data.drug_class, used_for := data.used_for }
    let dbNow := db ++ concurrent
    match insertMedicineRow dbNow record with
    | .ok db2 => .ok (record, db2)
    | .error e =>
      match ciLookup dbNow normalized with
      | some cached => .ok (cached, dbNow)
      | none => .error e

/-- The cache lookup of the daily card-set store: the first stroke_bites row
for the given patient and date (api/stroke_bites.py lines 104-107 and
148-151). -/
def findBite (db : List StrokeBiteRow) (pid : String) (d : Int) :
    Option StrokeBiteRow :=
  db.find? fun r => r.patient_id == pid && r.generated_date == d

/-- The stroke_bites rows for one (patient, date) key. -/
def biteKeyRows (pid : String) (d : Int) (db : List StrokeBiteRow) :
    List StrokeBiteRow :=
  db.filter fun r => r.patient_id == pid && r.generated_date == d

/-- Modelled from the spec: the storage-layer unique constraint on
stroke_bites (patient_id, generated_date). The stroke_bites table DDL is not
in the repository (the ORM mapping in models/stroke_bite.py declares no such
constraint and no script in the repository creates the table); the spec
states that one row per (patient, calendar date) is a hard invariant enforced
at the storage layer, so inserting a second row for an existing key raises
IntegrityError. -/
def insertBite (db : List StrokeBiteRow) (row : StrokeBiteRow) :
    Except PyErr (List StrokeBiteRow) :=
  if (findBite db row.patient_id row.generated_date).isSome then
    .error (.external "IntegrityError")
  else .ok (db ++ [row])

/-- The row built and stored by generate_todays_bites (api/stroke_bites.py
lines 133-139); generation results always carry the start_card_id and
card_sequence_length keys. -/
def mkBiteRow (pid : String) (today : Int) (result : BitesResult) :
    StrokeBiteRow :=
  { patient_id := pid, generated_date := today, cards_json := result,
    start_card_id := result.start_card_id.getD "",
    card_sequence_length := result.card_sequence_length.getD 8 }

/-- The control state of one generate_todays_bites request between its
database operations. -/
inductive HandlerPhase where
  | start (gen : Except PyErr BitesResult)
  | ready (content : BitesResult)
  | done (res : Except PyErr StrokeBiteRow)
  deriving Repr

/-- One atomic database step of generate_todays_bites (api/stroke_bites.py
lines 91-181) for patient pid and date today. In phase start the handler
performs the cache lookup: a hit is returned unchanged; on a miss the
predetermined generation outcome gen is consumed (generate_bites runs between
the lookup and the insert and touches no shared state): a generation
exception is surfaced as an HTTP 500 error, a generation result moves the
handler to phase ready. In phase ready the handler attempts the insert: on
success it returns the fresh row; on IntegrityError it rolls back,
re-fetches, and returns the winning row, or fails fatally when the re-fetch
finds nothing. -/
def handlerStep (pid : String) (today : Int) (db : List StrokeBiteRow) :
    HandlerPhase → List StrokeBiteRow × HandlerPhase
  | .start gen =>
    match findBite db pid today with
    | some row => (db, .done (.ok row))
    | none =>
      match gen with
      | .error e => (db, .done (.error e))
      | .ok content => (db, .ready content)
  | .ready content =>
    let row := mkBiteRow pid today content
    match insertBite db row with
    | .ok db2 => (db2, .done (.ok row))
    | .error _ =>
      match findBite db pid today with
      | some existing => (db, .done (.ok existing))
      | none => (db, .done (.error (.external "Failed to store generated bites")))
  | .done r => (db, .done r)

/-- A two-request race on the same (patient, date): the shared table and the
control state of each request. -/
structure RaceConfig where
  db : List StrokeBiteRow
  a : HandlerPhase
  b : HandlerPhase
  deriving Repr

/-- One scheduling step of the race: true lets request a take its next atomic
database step, false lets request b. -/
def raceStep (pid : String) (today : Int) (cfg : RaceConfig) (takeA : Bool) :
    RaceConfig :=
  if takeA then
    let s := handlerStep pid today cfg.db cfg.a
    { cfg with db := s.1, a := s.2 }
  else
    let s := handlerStep pid today cfg.db cfg.b
    { cfg with db := s.1, b := s.2 }

/-- Running a whole interleaving of the two requests. -/
def runRace (pid : String) (today : Int) (cfg : RaceConfig) :
    List Bool → RaceConfig
  | [] => cfg
  | s :: rest => runRace pid today (raceStep pid today cfg s) rest

/-- A request that has completed successfully holds exactly the row that the
cache lookup finds for its key. -/
def phaseRowOk (pid : String) (d : Int) (db : List StrokeBiteRow) :
    HandlerPhase → Prop
  | .done (.ok r) => findBite db pid d = some r
  | _ => True

/-- The race invariant: at most one stored row for the key, and every
completed request holds that row. -/
def raceInv (pid : String) (d : Int) (cfg : RaceConfig) : Prop :=
  (biteKeyRows pid d cfg.db).length ≤ 1 ∧
  phaseRowOk pid d cfg.db cfg.a ∧ phaseRowOk pid d cfg.db cfg.b

/-- C5: the fallback card set validates against its own start id, contains
exactly eight cards, each with a background color already assigned, has no qa
card and no research-fact card, and forms a linear sequence whose last card
has a null next_card_id. -/
theorem fallback_bites_valid_eight_linear :
    validate_card_graph (get_fallback_bites.cards.getD [])
        (get_fallback_bites.start_card_id.getD "c1") = .ok true ∧
    (get_fallback_bites.cards.getD []).length = 8 ∧
    ((get_fallback_bites.cards.getD []).all fun c =>
        c.background_color.isSome) = true ∧
    ((get_fallback_bites.cards.getD []).all fun c =>
        c.type != some "qa" && c.type != some "research_fact") = true ∧
    linearChain (get_fallback_bites.cards.getD []) = true :=
  ⟨rfl, rfl, rfl, rfl, rfl⟩

/-- C2: build_prompt is not a total prompt formatter: the example card block
inside its f-string is compiled into replacement fields whose format spec is
invalid for a str, so the function raises ValueError for every profile, every
insight list and every preference mapping instead of returning a prompt
pair. -/
theorem build_prompt_raises_for_every_input (today : Int)
    (profile : PatientProfile) (insights : List InsightRow)
    (past_answers : List (String × String)) :
    build_prompt today profile insights past_answers =
      .error (.valueError "Invalid format specifier") := rfl

/-- C3: generate_bites propagates the build_prompt ValueError for every input
and every external outcome; the LLM call is never reached, so no LLM or
validation problem is ever absorbed into the fallback path. -/
theorem generate_bites_raises_for_every_input (today : Int)
    (profile : PatientProfile) (pastBites : List StrokeBiteRow)
    (answers : List StrokeBiteAnswerRow)
    (semantic : Except PyErr (List InsightRow)) (store : List InsightRow)
    (llm : String → String → Except PyErr BitesResult) :
    generate_bites today profile pastBites answers semantic store llm =
      .error (.valueError "Invalid format specifier") := rfl

/-- C7 evaluated at the failing input: with an empty exclusion set, a profile
listing one therapy, a semantic step returning insight i1 and a store whose
scan also yields i1, the supplement step applies no id exclusion at all and
the function returns the same insight id twice. -/
theorem fetch_insights_duplicate_when_no_exclusions :
    fetch_insights 0 { id := "p1", current_therapies := ["physio"] } []
        (.ok [{ id := some "i1" }]) [{ id := some "i1" }] =
      [{ id := some "i1" }, { id := some "i1" }] := rfl

/-- C4 counterexample: a card whose linear next_card_id is the non-null empty
string, which matches no card id, is nonetheless accepted, because the code
tests Python truthiness rather than nullness. -/
theorem validate_accepts_nonnull_empty_reference :
    validate_card_graph [{ id := some "c1", next_card_id := some "" }] "c1" =
      .ok true ∧
    (some "" ≠ (none : Option String)) ∧
    cardIds [{ id := some "c1", next_card_id := some "" }] = .ok ["c1"] ∧
    "" ∉ ["c1"] :=
  ⟨rfl, by decide, rfl, by decide⟩

/-- C8 counterexample: a card record without an id field makes the validator
raise KeyError instead of returning a boolean. -/
theorem validate_raises_on_missing_id :
    validate_card_graph [{ type := some "welcome", body := some "hi" }] "c1" =
      .error (.keyError "id") := rfl

theorem refOk_eq_false_iff (ids : List String) (x : Option String) :
    refOk ids x = false ↔ ∃ s, x = some s ∧ s ≠ "" ∧ s ∉ ids := by
  cases x with
  | none => simp [refOk, pyTruthy]
  | some s =>
    simp only [refOk, pyTruthy, Option.getD_some]
    rcases Bool.eq_false_or_eq_true s.isEmpty with h1 | h1
    · have hs : s = "" := (String.isEmpty_iff s).1 h1
      subst hs
      simp [h1]
    · have hs : s ≠ "" := by
        intro e
        rw [e] at h1
        exact absurd h1 (by decide)
      simp [h1, hs]

theorem refOk_eq_true_iff (ids : List String) (x : Option String) :
    refOk ids x = true ↔ ∀ s, x = some s → s ≠ "" → s ∈ ids := by
  rw [← Bool.not_eq_false, refOk_eq_false_iff]
  push_neg
  rfl

theorem checkCard_eq_false_iff (ids : List String) (c : BiteCard) :
    checkCard ids c = false ↔
      (∃ s, c.next_card_id = some s ∧ s ≠ "" ∧ s ∉ ids) ∨
      (∃ opts, c.options = some opts ∧ ∃ o ∈ opts, ∃ s,
        o.next_card_id = some s ∧ s ≠ "" ∧ s ∉ ids) := by
  unfold checkCard
  rw [Bool.and_eq_false_iff]
  apply or_congr (refOk_eq_false_iff ids c.next_card_id)
  cases hopt : c.options with
  | none => simp
  | some opts =>
    simp [List.all_eq_false, Bool.not_eq_true, refOk_eq_false_iff]

theorem checkCard_eq_true_iff (ids : List String) (c : BiteCard) :
    checkCard ids c = true ↔
      (∀ s, c.next_card_id = some s → s ≠ "" → s ∈ ids) ∧
      (∀ opts, c.options = some opts → ∀ o ∈ opts, ∀ s,
        o.next_card_id = some s → s ≠ "" → s ∈ ids) := by
  unfold checkCard
  rw [Bool.and_eq_true]
  apply and_congr (refOk_eq_true_iff ids c.next_card_id)
  cases hopt : c.options with
  | none => simp
  | some opts =>
    simp [List.all_eq_true, refOk_eq_true_iff]

theorem validate_card_graph_eq (cards : List BiteCard) (start_id : String)
    (ids : List String) (h : cardIds cards = .ok ids) :
    validate_card_graph cards start_id =
      if start_id ∈ ids then .ok (cards.all (checkCard ids)) else .ok false := by
  unfold validate_card_graph
  rw [h]
  rfl

/-- C4 (amended): over card lists in which every card has an id, the
validator returns false exactly when the start id is not a card id or some
truthy (non-null, non-empty) forward reference, linear or option-level, is
not a card id; a null, absent or empty-string next_card_id is always
accepted, and every accepted card set has its start id in the id set and all
truthy references resolving within it. -/
theorem validate_card_graph_false_iff (cards : List BiteCard)
    (start_id : String) (ids : List String)
    (h : cardIds cards = .ok ids) :
    (validate_card_graph cards start_id = .ok false ↔
      start_id ∉ ids ∨ ∃ c ∈ cards,
        (∃ s, c.next_card_id = some s ∧ s ≠ "" ∧ s ∉ ids) ∨
        (∃ opts, c.options = some opts ∧ ∃ o ∈ opts, ∃ s,
          o.next_card_id = some s ∧ s ≠ "" ∧ s ∉ ids)) ∧
    (validate_card_graph cards start_id = .ok true →
      start_id ∈ ids ∧ ∀ c ∈ cards,
        (∀ s, c.next_card_id = some s → s ≠ "" → s ∈ ids) ∧
        (∀ opts, c.options = some opts → ∀ o ∈ opts, ∀ s,
          o.next_card_id = some s → s ≠ "" → s ∈ ids)) := by
  rw [validate_card_graph_eq cards start_id ids h]
  by_cases hs : start_id ∈ ids
  · rw [if_pos hs]
    constructor
    · simp [hs, List.all_eq_false, Bool.not_eq_true, checkCard_eq_false_iff]
    · intro ht
      have hall : cards.all (checkCard ids) = true := by
        simpa using ht
      refine ⟨hs, fun c hc => ?_⟩
      exact (checkCard_eq_true_iff ids c).1 (List.all_eq_true.1 hall c hc)
  · rw [if_neg hs]
    constructor
    · simp [hs]
    · intro ht
      simp at ht

/-- Witness for C4: the amended equivalence applied at a concrete card list,
concluding a concrete rejection of a dangling non-empty reference. -/
theorem validate_card_graph_false_iff_witness :
    validate_card_graph [{ id := some "a", next_card_id := some "b" }] "a" =
      .ok false :=
  ((validate_card_graph_false_iff
      [{ id := some "a", next_card_id := some "b" }] "a" ["a"] rfl).1).2
    (Or.inr ⟨{ id := some "a", next_card_id := some "b" }, by simp,
      Or.inl ⟨"b", rfl, by decide, by decide⟩⟩)

theorem cardIds_isOk (cards : List BiteCard)
    (h : ∀ c ∈ cards, c.id ≠ none) :
    ∃ ids, cardIds cards = .ok ids := by
  induction cards with
  | nil => exact ⟨[], rfl⟩
  | cons c cs ih =>
    obtain ⟨i, hi⟩ : ∃ i, c.id = some i :=
      Option.ne_none_iff_exists'.1 (h c (by simp))
    obtain ⟨ids, hids⟩ := ih fun x hx => h x (by simp [hx])
    refine ⟨i :: ids, ?_⟩
    simp only [cardIds, hi, hids]
    rfl

/-- C8 (amended): the validator is total and returns a boolean on every card
list in which every card record has an id field, for every start id; a card
record lacking an id field instead raises KeyError. -/
theorem validate_card_graph_total_when_ids_present (cards : List BiteCard)
    (start_id : String) (h : ∀ c ∈ cards, c.id ≠ none) :
    ∃ b, validate_card_graph cards start_id = .ok b := by
  obtain ⟨ids, hids⟩ := cardIds_isOk cards h
  rw [validate_card_graph_eq cards start_id ids hids]
  by_cases hs : start_id ∈ ids
  · exact ⟨cards.all (checkCard ids), by rw [if_pos hs]⟩
  · exact ⟨false, by rw [if_neg hs]⟩

/-- Witness for C8: totality applied at a concrete one-card list whose card
has an id and an option entry without a next_card_id. -/
theorem validate_card_graph_total_witness :
    ∃ b, validate_card_graph
      [{ id := some "a", options := some [{ key := some "k" }] }] "a" = .ok b :=
  validate_card_graph_total_when_ids_present
    [{ id := some "a", options := some [{ key := some "k" }] }] "a" (by decide)

theorem fetchStep1_excludes (profile : PatientProfile)
    (exclude_ids : List String) (semantic : Except PyErr (List InsightRow)) :
    ∀ r ∈ fetchStep1 profile exclude_ids semantic,
      ∀ s, r.id = some s → s ∉ exclude_ids := by
  intro r hr s hs
  unfold fetchStep1 at hr
  by_cases ht : (!profile.current_therapies.isEmpty) = true
  · rw [if_pos ht] at hr
    cases semantic with
    | error e =>
      dsimp only [] at hr
      exact absurd hr (List.not_mem_nil r)
    | ok rows =>
      dsimp only [] at hr
      by_cases he : rows.isEmpty = true
      · rw [if_pos he] at hr
        exact absurd hr (List.not_mem_nil r)
      · rw [if_neg he] at hr
        have hp := (List.mem_filter.1 hr).2
        rw [hs] at hp
        exact of_decide_eq_true hp
  · rw [if_neg ht] at hr
    exact absurd hr (List.not_mem_nil r)

theorem fetchStep2_excludes (today : Int) (profile : PatientProfile)
    (exclude_ids : List String) (chosen store more : List InsightRow)
    (h : fetchStep2 today profile exclude_ids chosen store = .ok more) :
    ∀ r ∈ more, ∀ s, r.id = some s → s ∉ exclude_ids := by
  intro r hr s hs
  simp only [fetchStep2] at h
  by_cases he : exclude_ids.isEmpty = true
  · rw [List.isEmpty_iff.1 he]
    exact List.not_mem_nil s
  · rw [if_neg he] at h
    cases hc : idsOfInsights chosen with
    | error e =>
      rw [hc] at h
      exact Except.noConfusion
        (h : (Except.error e : Except PyErr (List InsightRow)) = .ok more)
    | ok chosenIds =>
      rw [hc] at h
      replace h : Except.ok ((store.filter fun r =>
          insightMatchesFilters today profile r &&
          (match r.id with
           | none => false
           | some i => decide (i ∉ exclude_ids ++ chosenIds))).take
            (6 - chosen.length)) = Except.ok more := h
      cases h
      have hmem := List.take_subset _ _ hr
      have hp0 := (List.mem_filter.1 hmem).2
      rw [Bool.and_eq_true] at hp0
      have hp2 := hp0.2
      rw [hs] at hp2
      have hnot := of_decide_eq_true hp2
      intro hin
      exact hnot (List.mem_append.2 (Or.inl hin))

/-- C6: fetch_insights returns at most six insights and never one whose id is
in the exclusion set; it is total for every outcome of the semantic step, a
raising embedding or search call being just the error value of that
parameter, answered by the supplement path. -/
theorem fetch_insights_spec (today : Int) (profile : PatientProfile)
    (exclude_ids : List String) (semantic : Except PyErr (List InsightRow))
    (store : List InsightRow) :
    (fetch_insights today profile exclude_ids semantic store).length ≤ 6 ∧
    ∀ r ∈ fetch_insights today profile exclude_ids semantic store,
      ∀ s, r.id = some s → s ∉ exclude_ids := by
  constructor
  · unfold fetch_insights
    exact List.length_take_le _ _
  · intro r hr s hs
    simp only [fetch_insights] at hr
    have hr2 := List.take_subset _ _ hr
    by_cases hlen : (fetchStep1 profile exclude_ids semantic).length < 5
    · rw [if_pos hlen] at hr2
      cases h2 : fetchStep2 today profile exclude_ids
          (fetchStep1 profile exclude_ids semantic) store with
      | error e =>
        rw [h2] at hr2
        exact fetchStep1_excludes profile exclude_ids semantic r hr2 s hs
      | ok more =>
        rw [h2] at hr2
        rcases List.mem_append.1 hr2 with hmem | hmem
        · exact fetchStep1_excludes profile exclude_ids semantic r hmem s hs
        · exact fetchStep2_excludes today profile exclude_ids _ store more h2 r hmem s hs
    · rw [if_neg hlen] at hr2
      exact fetchStep1_excludes profile exclude_ids semantic r hr2 s hs

/-- Witness for C6: the bound and the exclusion property applied at a
concrete profile with a failing semantic step and a two-row store. -/
theorem fetch_insights_spec_witness :
    (fetch_insights 0 { id := "p1" } ["x"] (.error (.external "down"))
        [{ id := some "x" }, { id := some "y" }]).length ≤ 6 ∧
    "y" ∉ ["x"] :=
  ⟨(fetch_insights_spec 0 { id := "p1" } ["x"] (.error (.external "down"))
      [{ id := some "x" }, { id := some "y" }]).1,
   (fetch_insights_spec 0 { id := "p1" } ["x"] (.error (.external "down"))
      [{ id := some "x" }, { id := some "y" }]).2
     { id := some "y" } (by decide) "y" rfl⟩

theorem processLLMOutcome_ok_valid (r : BitesResult)
    (hv : validate_card_graph (r.cards.getD []) (r.start_card_id.getD "c1") =
      .ok true) :
    processLLMOutcome (.ok r) = .ok {
      cards := some (assign_card_colors (r.cards.getD [])),
      start_card_id := some (r.start_card_id.getD "c1"),
      total_cards := some (assign_card_colors (r.cards.getD [])).length,
      card_sequence_length := some (r.card_sequence_length.getD 8) } := by
  simp only [processLLMOutcome]
  rw [hv]

/-- C10: whenever the orchestrator returns a validated LLM generation, the
returned total_cards is the actual number of cards while card_sequence_length
is copied unchecked from the LLM output, defaulting to 8 when absent, so the
two fields of one returned set can disagree. -/
theorem processLLMOutcome_metadata :
    (∀ (r out : BitesResult),
      validate_card_graph (r.cards.getD []) (r.start_card_id.getD "c1") =
        .ok true →
      processLLMOutcome (.ok r) = .ok out →
      out.total_cards = some (r.cards.getD []).length ∧
      out.cards = some (assign_card_colors (r.cards.getD [])) ∧
      out.card_sequence_length = some (r.card_sequence_length.getD 8)) ∧
    (∃ r out : BitesResult,
      validate_card_graph (r.cards.getD []) (r.start_card_id.getD "c1") =
        .ok true ∧
      processLLMOutcome (.ok r) = .ok out ∧
      out.total_cards ≠ out.card_sequence_length) := by
  constructor
  · intro r out hv hp
    rw [processLLMOutcome_ok_valid r hv] at hp
    cases hp
    refine ⟨?_, rfl, rfl⟩
    simp [assign_card_colors]
  · refine ⟨{ cards := some [{ id := some "c1" }], start_card_id := some "c1" },
      { cards := some (assign_card_colors [{ id := some "c1" }]),
        start_card_id := some "c1", total_cards := some 1,
        card_sequence_length := some 8 }, rfl, ?_, by decide⟩
    exact processLLMOutcome_ok_valid _ rfl

/-- Witness for C10: the metadata equations applied at a concrete validated
one-card result that declares a sequence length of nine. -/
theorem processLLMOutcome_metadata_witness :
    ({ cards := some (assign_card_colors [{ id := some "w1" }]),
       start_card_id := some "w1", total_cards := some 1,
       card_sequence_length := some 9 } : BitesResult).total_cards =
      some (([{ id := some "w1" }] : List BiteCard).length) :=
  (processLLMOutcome_metadata.1
    { cards := some [{ id := some "w1" }], start_card_id := some "w1",
      card_sequence_length := some 9 }
    { cards := some (assign_card_colors [{ id := some "w1" }]),
      start_card_id := some "w1", total_cards := some 1,
      card_sequence_length := some 9 }
    rfl rfl).1

/-- C9: on a cache miss, a failing LLM call persists and returns a row whose
combination, drug-class and used-for fields are all null; and when the final
insert conflicts with a concurrently inserted row of the same exact name, the
function re-fetches by case-insensitive name and returns the existing row
instead of erroring. -/
theorem get_or_create_medicine_info_spec (name : String)
    (db concurrent : List MedicineInfoRow) (llm : Except PyErr MedData)
    (e : PyErr) :
    (ciLookup db (pyStrip name) = none →
      ((db ++ concurrent).any fun r =>
        r.medicine_name == pyStrip name) = false →
      get_or_create_medicine_info name db concurrent (.error e) =
        .ok ({ medicine_name := pyStrip name },
             (db ++ concurrent) ++ [{ medicine_name := pyStrip name }])) ∧
    (ciLookup db (pyStrip name) = none →
      (∃ r ∈ db ++ concurrent, r.medicine_name = pyStrip name) →
      ∃ row, get_or_create_medicine_info name db concurrent llm =
          .ok (row, db ++ concurrent) ∧
        row.medicine_name.toLower = (pyStrip name).toLower) := by
  constructor
  · intro hmiss hfree
    simp only [get_or_create_medicine_info]
    rw [hmiss]
    simp [insertMedicineRow, hfree]
  · intro hmiss hconf
    obtain ⟨r0, hr0, hname⟩ := hconf
    simp only [get_or_create_medicine_info]
    rw [hmiss]
    have hany : ((db ++ concurrent).any fun r =>
        r.medicine_name == pyStrip name) = true :=
      List.any_eq_true.2 ⟨r0, hr0, by simp [hname]⟩
    have hsome : ((db ++ concurrent).find? fun r =>
        r.medicine_name.toLower == (pyStrip name).toLower).isSome = true :=
      List.find?_isSome.2 ⟨r0, hr0, by simp [hname]⟩
    obtain ⟨row, hrow⟩ := Option.isSome_iff_exists.1 hsome
    refine ⟨row, ?_, ?_⟩
    · simp [insertMedicineRow, hany, ciLookup, hrow]
    · have hb := List.find?_some hrow
      exact eq_of_beq hb

/-- Witness for C9: both branches applied at concrete inputs, a failing LLM
call on an empty table and a conflicting concurrent insert of the same
name. -/
theorem get_or_create_medicine_info_spec_witness :
    get_or_create_medicine_info " Dolo " [] [] (.error (.external "down")) =
      .ok ({ medicine_name := pyStrip " Dolo " },
           ([] ++ []) ++ [{ medicine_name := pyStrip " Dolo " }]) ∧
    ∃ row, get_or_create_medicine_info "dolo" []
        [{ medicine_name := "dolo", drug_class := some "x" }] (.ok {}) =
      .ok (row, [] ++ [{ medicine_name := "dolo", drug_class := some "x" }]) ∧
      row.medicine_name.toLower = (pyStrip "dolo").toLower :=
  ⟨(get_or_create_medicine_info_spec " Dolo " [] [] (.ok {})
      (.external "down")).1 rfl rfl,
   (get_or_create_medicine_info_spec "dolo" []
      [{ medicine_name := "dolo", drug_class := some "x" }] (.ok {})
      (.external "down")).2 rfl
    ⟨{ medicine_name := "dolo", drug_class := some "x" }, by simp, by decide⟩⟩

theorem findBite_none_keyRows (pid : String) (d : Int)
    (db : List StrokeBiteRow) (h : findBite db pid d = none) :
    biteKeyRows pid d db = [] := by
  unfold findBite at h
  unfold biteKeyRows
  rw [List.filter_eq_nil_iff]
  exact List.find?_eq_none.1 h

theorem findBite_append_singleton (pid : String) (d : Int)
    (db : List StrokeBiteRow) (row : StrokeBiteRow)
    (h : findBite db pid d = none)
    (hp : (row.patient_id == pid && row.generated_date == d) = true) :
    findBite (db ++ [row]) pid d = some row := by
  unfold findBite at h ⊢
  rw [List.find?_append, h]
  simp [List.find?_cons, hp]

theorem handlerStep_preserves (pid : String) (d : Int)
    (db : List StrokeBiteRow) (ph other : HandlerPhase)
    (hlen : (biteKeyRows pid d db).length ≤ 1)
    (hself : phaseRowOk pid d db ph) (hother : phaseRowOk pid d db other) :
    (biteKeyRows pid d (handlerStep pid d db ph).1).length ≤ 1 ∧
    phaseRowOk pid d (handlerStep pid d db ph).1 (handlerStep pid d db ph).2 ∧
    phaseRowOk pid d (handlerStep pid d db ph).1 other := by
  cases ph with
  | start gen =>
    cases hfind : findBite db pid d with
    | some row =>
      simp only [handlerStep, hfind]
      exact ⟨hlen, hfind, hother⟩
    | none =>
      cases gen with
      | error e =>
        simp only [handlerStep, hfind]
        exact ⟨hlen, trivial, hother⟩
      | ok content =>
        simp only [handlerStep, hfind]
        exact ⟨hlen, trivial, hother⟩
  | ready content =>
    cases hfind : findBite db pid d with
    | none =>
      have hkey : ((mkBiteRow pid d content).patient_id == pid &&
          (mkBiteRow pid d content).generated_date == d) = true := by
        simp [mkBiteRow]
      have hins : insertBite db (mkBiteRow pid d content) =
          .ok (db ++ [mkBiteRow pid d content]) := by
        unfold insertBite
        simp [mkBiteRow, hfind]
      simp only [handlerStep, hins]
      refine ⟨?_, ?_, ?_⟩
      · unfold biteKeyRows
        rw [List.filter_append]
        have hnil : biteKeyRows pid d db = [] :=
          findBite_none_keyRows pid d db hfind
        unfold biteKeyRows at hnil
        rw [hnil]
        simp [hkey]
      · exact findBite_append_singleton pid d db _ hfind hkey
      · cases other with
        | done r =>
          cases r with
          | ok rr =>
            have hother' : findBite db pid d = some rr := hother
            rw [hfind] at hother'
            exact Option.noConfusion hother'
          | error e => trivial
        | start g => trivial
        | ready c => trivial
    | some existing =>
      have hins : insertBite db (mkBiteRow pid d content) =
          .error (.external "IntegrityError") := by
        unfold insertBite
        simp [mkBiteRow, hfind]
      simp only [handlerStep, hins, hfind]
      exact ⟨hlen, hfind, hother⟩
  | done r =>
    simp only [handlerStep]
    exact ⟨hlen, hself, hother⟩

theorem raceStep_preserves (pid : String) (d : Int) (cfg : RaceConfig)
    (s : Bool) (h : raceInv pid d cfg) :
    raceInv pid d (raceStep pid d cfg s) := by
  obtain ⟨hlen, ha, hb⟩ := h
  cases s with
  | true =>
    have hstep := handlerStep_preserves pid d cfg.db cfg.a cfg.b hlen ha hb
    exact ⟨hstep.1, hstep.2.1, hstep.2.2⟩
  | false =>
    have hstep := handlerStep_preserves pid d cfg.db cfg.b cfg.a hlen hb ha
    exact ⟨hstep.1, hstep.2.2, hstep.2.1⟩

theorem runRace_preserves (pid : String) (d : Int) (sched : List Bool)
    (cfg : RaceConfig) (h : raceInv pid d cfg) :
    raceInv pid d (runRace pid d cfg sched) := by
  induction sched generalizing cfg with
  | nil => exact h
  | cons s rest ih => exact ih _ (raceStep_preserves pid d cfg s h)

/-- C1: under the spec-modelled storage-layer uniqueness constraint, a table
that holds at most one row for a (patient, date) key keeps at most one row
through any interleaving of two generation requests for that key; and
whenever both requests complete successfully, exactly one row for the key is
stored and both requests return exactly that row, the loser of the insert
race having re-fetched the winner. -/
theorem stroke_bites_daily_uniqueness (pid : String) (d : Int)
    (db0 : List StrokeBiteRow) (genA genB : Except PyErr BitesResult)
    (sched : List Bool) (rA rB : StrokeBiteRow)
    (h0 : (biteKeyRows pid d db0).length ≤ 1)
    (hA : (runRace pid d ⟨db0, .start genA, .start genB⟩ sched).a =
      .done (.ok rA))
    (hB : (runRace pid d ⟨db0, .start genA, .start genB⟩ sched).b =
      .done (.ok rB)) :
    rA = rB ∧
    findBite (runRace pid d ⟨db0, .start genA, .start genB⟩ sched).db pid d =
      some rA ∧
    (biteKeyRows pid d
      (runRace pid d ⟨db0, .start genA, .start genB⟩ sched).db).length = 1 := by
  have hinv := runRace_preserves pid d sched ⟨db0, .start genA, .start genB⟩
    ⟨h0, trivial, trivial⟩
  obtain ⟨hlen, ha, hb⟩ := hinv
  rw [hA] at ha
  rw [hB] at hb
  have ha' : findBite (runRace pid d ⟨db0, .start genA, .start genB⟩ sched).db
      pid d = some rA := ha
  have hb' : findBite (runRace pid d ⟨db0, .start genA, .start genB⟩ sched).db
      pid d = some rB := hb
  have hab : rA = rB := Option.some.inj (ha' ▸ hb')
  refine ⟨hab, ha', ?_⟩
  have ha'' : List.find? (fun r => r.patient_id == pid && r.generated_date == d)
      (runRace pid d ⟨db0, .start genA, .start genB⟩ sched).db = some rA := ha'
  have hmem : rA ∈ biteKeyRows pid d
      (runRace pid d ⟨db0, .start genA, .start genB⟩ sched).db := by
    unfold biteKeyRows
    have hpred := List.find?_some ha''
    exact List.mem_filter.2 ⟨List.mem_of_find?_eq_some ha'', hpred⟩
  have hpos := List.length_pos_of_mem hmem
  omega

/-- Witness for C1: a concrete interleaving in which both requests miss the
cache, request a wins the insert and request b hits the uniqueness violation
and re-fetches the winning row. -/
theorem stroke_bites_daily_uniqueness_witness :
    mkBiteRow "p" 0 {} = mkBiteRow "p" 0 {} ∧
    findBite (runRace "p" 0 ⟨[], .start (.ok {}), .start (.ok {})⟩
      [true, false, true, false]).db "p" 0 = some (mkBiteRow "p" 0 {}) ∧
    (biteKeyRows "p" 0 (runRace "p" 0 ⟨[], .start (.ok {}), .start (.ok {})⟩
      [true, false, true, false]).db).length = 1 :=
  stroke_bites_daily_uniqueness "p" 0 [] (.ok {}) (.ok {})
    [true, false, true, false] (mkBiteRow "p" 0 {}) (mkBiteRow "p" 0 {})
    (Nat.zero_le 1) rfl rfl

end Strokecovery
